import Mathlib

/-!
Verification development for the WHEP→SRT bridge (`src/main.rs`).

The program is a GStreamer pipeline orchestrator: a static pipeline is
parsed from a launch string, a `webrtcbin` pad-added handler promotes
newly negotiated pads out of nested bins via ghost pads, a buffer probe
on the top-level input bin classifies each promoted pad by its caps
`media` field and routes it (audio → decodebin → audioconvert →
audioresample → capsfilter → liveadder mixer; video → fakesink; other →
logged and dropped), and the main thread consumes the bus until EOS or
an Error message, then drives the pipeline to Null.

This file shallowly embeds the handler bodies of `main.rs` as pure
Lean functions over explicit data (pads, nesting depths, event lists,
action traces) and proves the specification claims about them.
Panicking paths (`expect` / `unwrap`) are modelled with `Option`.
-/

namespace WhepSrt

/-! ## Caps and pads (GStreamer data model used by the handlers)

A pad's `current_caps()` may be absent before negotiation; a caps object
carries a list of structures; `structure(0).get::<String>("media")`
reads the `media` field of the first structure. -/

/-- One caps structure; the handlers only read its `media` field
(`s.get::<String>("media")`), which may be absent. -/
structure CapsStructure where
  media : Option String
deriving DecidableEq, Repr

/-- A caps object: an ordered list of structures (`caps.structure(0)` is
the first one). -/
structure Caps where
  structures : List CapsStructure
deriving DecidableEq, Repr

/-- A data port (GStreamer pad) as seen by the `webrtcbin` pad-added
handler: its name, whether it is already linked, and its current caps
(absent until negotiation completes). -/
structure WPad where
  name : String
  isLinked : Bool
  currentCaps : Option Caps
deriving DecidableEq, Repr

/-- `pad.current_caps()` → `caps.structure(0)` → `get::<String>("media")`:
each step panics (`expect`) in the source when the value is absent,
modelled by `none`. -/
def padMediaType (pad : WPad) : Option String :=
  match pad.currentCaps with
  | none => none
  | some caps =>
    match caps.structures.get? 0 with
    | none => none
    | some s => s.media

/-! ## Pad Promoter: the `webrtcbin` pad-added handler (main.rs 139-199)

The handler walks outward from `webrtcbin`: `parent` is the bin directly
containing it, `parent.parent()` the next level.  `nestingDepth` is the
number of bins strictly between `webrtcbin` and the top-level pipeline
(the chain webrtcbin → bin₁ → … → bin_n → pipeline has depth n). -/

/-- What a synthesized ghost pad targets: the original `webrtcbin` pad,
or the ghost pad created at a previous (inner) level. -/
inductive GhostTarget where
  | originalPad (padName : String)
  | ghostAtLevel (level : Nat)
deriving DecidableEq, Repr

/-- One ghost pad creation: its name, the nesting level of the container
it is added to (1 = the bin directly containing `webrtcbin`), and its
target. -/
structure GhostAction where
  name : String
  level : Nat
  target : GhostTarget
deriving DecidableEq, Repr

/-- The `webrtcbin` pad-added handler (main.rs 139-199).  It first reads
the pad's media type (panicking if caps/structure/field are missing,
modelled by `none`).  If the pad is already linked it does nothing.
Otherwise it builds `new_pad_name = format!("{media}_{padname}")`,
adds a ghost pad targeting the pad to the parent bin, then checks
whether the parent's parent is the pipeline: if so it stops (one ghost
pad); otherwise it adds a second ghost pad, of the same name, targeting
the first, to that grandparent bin, and stops.  At depth 0 the
grandparent lookup `parent.parent().expect(..)` panics (`none`). -/
def webrtcbinPadAdded (pad : WPad) (nestingDepth : Nat) :
    Option (List GhostAction) :=
  match padMediaType pad with
  | none => none
  | some media =>
    if pad.isLinked then
      some []
    else
      let newPadName := media ++ "_" ++ pad.name
      match nestingDepth with
      | 0 => none
      | 1 => some [⟨newPadName, 1, GhostTarget.originalPad pad.name⟩]
      | _ + 2 =>
        some [⟨newPadName, 1, GhostTarget.originalPad pad.name⟩,
              ⟨newPadName, 2, GhostTarget.ghostAtLevel 1⟩]

/-! ## Routing actions

The buffer-probe handler (main.rs 214-311) and the nested decodebin
pad-added handler (238-278) mutate the pipeline.  We record their effect
as an ordered trace of primitive actions.  Dynamically created elements
get numeric ids: the decodebin is id 0; the k-th decodebin output leg
creates audioconvert/audioresample/capsfilter with ids 3k+1, 3k+2, 3k+3
and requests mixer slot k (`request_pad_simple("sink_%u")` hands out a
fresh pad per call, modelled by the sequential slot index).  The video
fakesink also gets id 0 (its trace is disjoint from the audio one). -/

/-- An endpoint of a pad link: a named static pad of a dynamically
created element, the probed source pad on the input bin, or a requested
mixer input slot. -/
inductive PadRef where
  | elemPad (id : Nat) (padName : String)
  | probePad
  | mixerSlot (slot : Nat)
deriving DecidableEq, Repr

/-- A primitive pipeline-mutating (or logging) action performed by the
routing handlers, in source order. -/
inductive Act where
  | logInfo (msg : String)
  | logError (msg : String)
  | create (factory : String) (id : Nat)
  | setCapsProp (id : Nat) (caps : String)
  | addToPipeline (id : Nat)
  | syncStateWithParent (id : Nat)
  | connectPadAdded (id : Nat)
  | linkElements (src dst : Nat)
  | requestMixerPad (slot : Nat)
  | linkPads (src dst : PadRef)
deriving DecidableEq, Repr

/-- The caps string set on the dynamically created capsfilter
(main.rs 250). -/
def capsFilterString : String := "audio/x-raw,format=F32LE,rate=48000"

/-- The decodebin pad-added handler body (main.rs 238-278) for the k-th
output leg, whose decodebin source pad is named `legPad`: create
audioconvert / audioresample / capsfilter, set the capsfilter caps,
`add_many`, sync each with the parent, `link_many`, request a fresh
mixer input slot, link capsfilter src to it, and link the decodebin leg
pad to the audioconvert sink. -/
def decodebinLegTrace (k : Nat) (legPad : String) : List Act :=
  let c := 3 * k + 1
  let r := 3 * k + 2
  let f := 3 * k + 3
  [Act.logInfo ("pad '" ++ legPad ++ "' added on decodebin"),
   Act.create "audioconvert" c,
   Act.create "audioresample" r,
   Act.create "capsfilter" f,
   Act.setCapsProp f capsFilterString,
   Act.addToPipeline c,
   Act.addToPipeline r,
   Act.addToPipeline f,
   Act.syncStateWithParent c,
   Act.syncStateWithParent r,
   Act.syncStateWithParent f,
   Act.linkElements c r,
   Act.linkElements r f,
   Act.requestMixerPad k,
   Act.linkPads (PadRef.elemPad f "src") (PadRef.mixerSlot k),
   Act.linkPads (PadRef.elemPad 0 legPad) (PadRef.elemPad c "sink")]

/-- The traces produced when the decodebin emits pad-added notifications
for the given list of output legs: the handler stays connected, so it
runs once per leg, in order. -/
def decodebinRun (legs : List String) : List (List Act) :=
  legs.enum.map fun p => decodebinLegTrace p.1 p.2

/-- The body of the buffer-probe callback after the media type has been
read (main.rs 218-308): logs, then matches the media string.  `"audio"`:
create a decodebin, add it, sync it, connect its pad-added handler, and
link the probed pad to its sink pad.  `"video"`: create a fakesink, add
it, sync it, link the probed pad to its sink pad.  Anything else: log
`"unhandled media type"` and do nothing further. -/
def probeActs (media : String) : List Act :=
  Act.logInfo ("getting " ++ media ++ " track") ::
  (if media = "audio" then
    [Act.create "decodebin" 0,
     Act.addToPipeline 0,
     Act.syncStateWithParent 0,
     Act.connectPadAdded 0,
     Act.linkPads PadRef.probePad (PadRef.elemPad 0 "sink")]
  else if media = "video" then
    [Act.create "fakesink" 0,
     Act.addToPipeline 0,
     Act.syncStateWithParent 0,
     Act.linkPads PadRef.probePad (PadRef.elemPad 0 "sink")]
  else
    [Act.logError "unhandled media type"])

/-- The probe-return value (gstreamer `PadProbeReturn`); the handler
always returns `Remove` (main.rs 310). -/
inductive ProbeReturn where
  | remove
  | ok
deriving DecidableEq, Repr

/-- One full invocation of the probe callback: its action trace and its
return value.  The callback unconditionally ends with
`PadProbeReturn::Remove`. -/
structure ProbeOutcome where
  acts : List Act
  ret : ProbeReturn
deriving DecidableEq, Repr

/-- The probe callback on a negotiated media type (main.rs 214-311). -/
def probeHandler (media : String) : ProbeOutcome :=
  ⟨probeActs media, ProbeReturn.remove⟩

/-! ## The buffer probe as a pad-event machine

`input_whep_bin.connect_pad_added` (main.rs 203) installs on each new
pad a probe of type `PadProbeType::BUFFER`: the callback fires on data
buffers only, never on caps events.  GStreamer removes a probe whose
callback returns `PadProbeReturn::Remove`, so the callback runs at most
once per pad.  We model the events a pad sees as a list, and run the
probe machinery over it. -/

/-- An event on the probed pad: a caps negotiation (setting the pad's
current caps `media` field) or a data buffer. -/
inductive PadEvent where
  | capsSet (media : String)
  | buffer
deriving DecidableEq, Repr

/-- The probed pad's state: its current caps `media` field (absent until
negotiated), whether the buffer probe is still installed, whether the
process has panicked (the callback's `current_caps().unwrap()` on a pad
with no caps), and the recorded callback invocations (`none` = the
invocation panicked before producing an outcome). -/
structure PadState where
  currentMedia : Option String
  probeInstalled : Bool
  panicked : Bool
  invocations : List (Option ProbeOutcome)
deriving DecidableEq, Repr

/-- The pad just after `connect_pad_added` installed the buffer probe:
no caps yet, probe installed, nothing invoked. -/
def initialPadState : PadState :=
  ⟨none, true, false, []⟩

/-- One pad event.  A caps event updates the pad's current caps.  A
buffer fires the probe if it is still installed: the callback reads
`current_caps().unwrap()` (panicking when absent), classifies the media
type, performs the routing actions, and returns `Remove`, which
uninstalls the probe. -/
def stepEvent (st : PadState) (e : PadEvent) : PadState :=
  match e with
  | PadEvent.capsSet m => { st with currentMedia := some m }
  | PadEvent.buffer =>
    if st.probeInstalled then
      match st.currentMedia with
      | none =>
        { st with panicked := true, invocations := st.invocations ++ [none] }
      | some media =>
        let oc := probeHandler media
        { st with
            probeInstalled := decide (oc.ret ≠ ProbeReturn.remove),
            invocations := st.invocations ++ [some oc] }
    else st

/-- Run the pad through a list of events; a panic aborts the process, so
no further events are processed after it. -/
def runEvents (st : PadState) : List PadEvent → PadState
  | [] => st
  | e :: rest => if st.panicked then st else runEvents (stepEvent st e) rest

/-- GStreamer stream discipline: caps are always negotiated on a pad
before any data buffer flows on it.  `capsBeforeBuffer cur evs` checks
that, starting from current caps `cur`, every buffer in `evs` is
preceded by some caps event. -/
def capsBeforeBuffer (cur : Option String) : List PadEvent → Bool
  | [] => true
  | PadEvent.capsSet m :: rest => capsBeforeBuffer (some m) rest
  | PadEvent.buffer :: rest => cur.isSome && capsBeforeBuffer cur rest

/-! ## Graph Lifecycle Supervisor: the bus loop (main.rs 321-372)

`bus.iter_timed(ClockTime::NONE)` is consumed in order.  StateChanged
messages from the pipeline are debug-logged (and dot-dumped when
`dot_debug`); Eos breaks; Error logs the source path, message and debug
detail (and dot-dumps), then breaks; everything else is skipped.  After
the loop, the pipeline is set to Null, the thread sleeps one second, and
`main` returns — the process exit code is 0. -/

/-- A bus message, as matched by the loop's `MessageView`. -/
inductive Message where
  | stateChanged (srcIsPipeline : Bool) (old current : String)
  | eos
  | error (srcPath : Option String) (errMsg : String) (debug : Option String)
  | other
deriving DecidableEq, Repr

/-- A log/diagnostic emission of the bus loop. -/
inductive BusLog where
  | stateChangeDebug (old current : String)
  | dotDump (label : String)
  | errorLog (srcPath : Option String) (errMsg : String) (debug : Option String)
deriving DecidableEq, Repr

/-- Messages that terminate the loop (`break` arms). -/
def isTerminal : Message → Bool
  | Message.eos => true
  | Message.error _ _ _ => true
  | _ => false

/-- The bus consumption loop: returns the logs it emitted and the
messages left unconsumed when it broke out (the loop stops at the first
Eos or Error; a StateChanged whose source is not the pipeline, and any
other message, is skipped). -/
def busLoop (dotDebug : Bool) : List Message → List BusLog × List Message
  | [] => ([], [])
  | m :: rest =>
    match m with
    | Message.stateChanged srcIsPipeline old current =>
      if srcIsPipeline then
        let here := BusLog.stateChangeDebug old current ::
          (if dotDebug then [BusLog.dotDump current] else [])
        let tail := busLoop dotDebug rest
        (here ++ tail.1, tail.2)
      else busLoop dotDebug rest
    | Message.eos => ([], rest)
    | Message.error srcPath errMsg debug =>
      (BusLog.errorLog srcPath errMsg debug ::
        (if dotDebug then [BusLog.dotDump "error"] else []), rest)
    | Message.other => busLoop dotDebug rest

/-- Pipeline states relevant to the supervisor. -/
inductive GstState where
  | null
  | ready
  | paused
  | playing
deriving DecidableEq, Repr

/-- What `main` does from entering the bus loop to returning: consume
the bus until a terminal message, set the pipeline to Null, sleep, and
return from `main` — which makes the process exit with code 0
(main.rs 321-372). -/
structure MainResult where
  logs : List BusLog
  unconsumed : List Message
  finalState : GstState
  exitCode : Int
deriving DecidableEq, Repr

/-- The supervisor run: bus loop, then shutdown to Null, then normal
return (exit code 0). -/
def runUntilTerminal (dotDebug : Bool) (msgs : List Message) : MainResult :=
  let r := busLoop dotDebug msgs
  ⟨r.1, r.2, GstState.null, 0⟩

/-! ## Startup: parsing the static pipeline description (main.rs 84-100)

`gst::parse::launch_full` either yields a pipeline or an error; on
`ParseError::NoSuchElement` the missing element names from the parse
context are logged and the process exits with code -1; on any other
parse error the error is logged and the process exits with code -1.
Only on success does `main` go on to `set_state(Playing)`
(main.rs 314-317). -/

/-- The outcome of `gst::parse::launch_full`. -/
inductive ParseResult where
  | ok
  | noSuchElement (missingElements : List String)
  | otherParseError (errMsg : String)
deriving DecidableEq, Repr

/-- Observable startup actions up to and including the transition to
Playing. -/
inductive StartupAct where
  | logMissingElements (missingElements : List String)
  | logParseFailure (errMsg : String)
  | exitProcess (code : Int)
  | buildHandlers
  | setStatePlaying
deriving DecidableEq, Repr

/-- Startup control flow (main.rs 84-100 and 314-317): a parse error
logs and exits with code -1 before any state change; on success the
handlers are wired and the pipeline is set to Playing. -/
def startupActs (res : ParseResult) : List StartupAct :=
  match res with
  | ParseResult.noSuchElement missing =>
    [StartupAct.logMissingElements missing, StartupAct.exitProcess (-1)]
  | ParseResult.otherParseError errMsg =>
    [StartupAct.logParseFailure errMsg, StartupAct.exitProcess (-1)]
  | ParseResult.ok =>
    [StartupAct.buildHandlers, StartupAct.setStatePlaying]

/-! ## Observation helpers over action traces -/

/-- Split a character list at every occurrence of `c`. -/
def splitOnChar (c : Char) (l : List Char) : List (List Char) :=
  l.foldr (fun ch acc =>
    match acc with
    | [] => [[ch]]
    | cur :: rest => if ch = c then [] :: cur :: rest else (ch :: cur) :: rest)
    [[]]

/-- The `k=v` fields of a comma-separated caps string, e.g.
`"audio/x-raw,format=F32LE,rate=48000"` has fields
`format ↦ F32LE` and `rate ↦ 48000` (the bare media-type part carries no
`=` and is not a field). -/
def capsFields (s : String) : List (String × String) :=
  (splitOnChar ',' s.toList).filterMap fun part =>
    match splitOnChar '=' part with
    | [k, v] => some (k.asString, v.asString)
    | _ => none

/-- Number of `create` actions for a given factory name in a trace. -/
def createsOf (factory : String) (tr : List Act) : Nat :=
  (tr.filter fun a =>
    match a with
    | Act.create f _ => f == factory
    | _ => false).length

/-- Ids of the elements created in a trace, in order. -/
def createdIds (tr : List Act) : List Nat :=
  tr.filterMap fun a =>
    match a with
    | Act.create _ id => some id
    | _ => none

/-- The mixer input slots requested in a trace, in order. -/
def mixerSlotsOf (tr : List Act) : List Nat :=
  tr.filterMap fun a =>
    match a with
    | Act.requestMixerPad s => some s
    | _ => none

/-- Total mixer input slots requested across a list of traces. -/
def totalMixerSlots (trs : List (List Act)) : Nat :=
  (trs.map fun tr => (mixerSlotsOf tr).length).sum

/-- Total `create` actions for a factory across a list of traces. -/
def totalCreatesOf (factory : String) (trs : List (List Act)) : Nat :=
  (trs.map (createsOf factory)).sum

/-- The caps strings set (via `set_property_from_str("caps", ..)`) in a
trace. -/
def capsPropsSet (tr : List Act) : List String :=
  tr.filterMap fun a =>
    match a with
    | Act.setCapsProp _ s => some s
    | _ => none

/-- Whether an action adds element `id` to the pipeline. -/
def isAddOf (id : Nat) : Act → Bool
  | Act.addToPipeline i => i == id
  | _ => false

/-- Whether an action syncs element `id`'s state with its parent. -/
def isSyncOf (id : Nat) : Act → Bool
  | Act.syncStateWithParent i => i == id
  | _ => false

/-- Whether a pad reference belongs to element `id`. -/
def padRefUses (id : Nat) : PadRef → Bool
  | PadRef.elemPad i _ => i == id
  | _ => false

/-- Whether an action links a pad or element of element `id`. -/
def linkInvolves (id : Nat) : Act → Bool
  | Act.linkElements a b => a == id || b == id
  | Act.linkPads s d => padRefUses id s || padRefUses id d
  | _ => false

/-- Element `id` is added to the pipeline, its state synced after the
add, and every link involving it happens after the sync. -/
def syncedAfterAddBeforeLinks (tr : List Act) (id : Nat) : Bool :=
  match tr.findIdx? (isAddOf id), tr.findIdx? (isSyncOf id) with
  | some a, some s =>
    decide (a < s) &&
      tr.enum.all fun p => !(linkInvolves id p.2) || decide (s < p.1)
  | _, _ => false

/-- All actions performed by the probe-callback invocations recorded on
a pad (panicked invocations produced none). -/
def routingActs (st : PadState) : List Act :=
  (st.invocations.map fun o =>
    match o with
    | none => []
    | some oc => oc.acts).flatten

/-! ## Claim theorems -/

/-- C4: for every newly appeared, unlinked data port discovered inside
the WebRTC sub-element, nested one or two container levels deep, the
pad promoter creates one ghost pad per containing level, each named by
combining the media kind with the original pad's name; the first ghost
pad targets the original pad, the second (when present) targets the
first; and exactly `depth` ghost pads are created, i.e. promotion stops
once the current container's parent is the top-level pipeline. -/
theorem C4_pad_promoter (pad : WPad) (depth : Nat) (media : String)
    (hm : padMediaType pad = some media) (hl : pad.isLinked = false)
    (hd : depth = 1 ∨ depth = 2) :
    ∃ gs, webrtcbinPadAdded pad depth = some gs ∧
      gs.length = depth ∧
      (∀ g ∈ gs, g.name = media ++ "_" ++ pad.name) ∧
      gs.get? 0 = some ⟨media ++ "_" ++ pad.name, 1,
        GhostTarget.originalPad pad.name⟩ ∧
      (depth = 2 → gs.get? 1 = some ⟨media ++ "_" ++ pad.name, 2,
        GhostTarget.ghostAtLevel 1⟩) := by
  rcases hd with h | h <;> subst h
  · refine ⟨[⟨media ++ "_" ++ pad.name, 1, GhostTarget.originalPad pad.name⟩],
      ?_, rfl, ?_, rfl, ?_⟩
    · simp [webrtcbinPadAdded, hm, hl]
    · intro g hg
      rw [List.mem_singleton] at hg
      subst hg; rfl
    · intro h; exact absurd h (by decide)
  · refine ⟨[⟨media ++ "_" ++ pad.name, 1, GhostTarget.originalPad pad.name⟩,
      ⟨media ++ "_" ++ pad.name, 2, GhostTarget.ghostAtLevel 1⟩],
      ?_, rfl, ?_, rfl, fun _ => rfl⟩
    · simp [webrtcbinPadAdded, hm, hl]
    · intro g hg
      simp only [List.mem_cons, List.not_mem_nil, or_false] at hg
      rcases hg with h | h <;> subst h <;> rfl

/-- Witness for C4 at a concrete audio pad, depth 2. -/
theorem C4_pad_promoter_witness :
    ∃ gs, webrtcbinPadAdded ⟨"src_1", false, some ⟨[⟨some "audio"⟩]⟩⟩ 2 =
        some gs ∧
      gs.length = 2 ∧
      (∀ g ∈ gs, g.name = "audio" ++ "_" ++ "src_1") ∧
      gs.get? 0 = some ⟨"audio" ++ "_" ++ "src_1", 1,
        GhostTarget.originalPad "src_1"⟩ ∧
      (2 = 2 → gs.get? 1 = some ⟨"audio" ++ "_" ++ "src_1", 2,
        GhostTarget.ghostAtLevel 1⟩) :=
  C4_pad_promoter ⟨"src_1", false, some ⟨[⟨some "audio"⟩]⟩⟩ 2 "audio"
    rfl rfl (Or.inr rfl)

/-- C9: a pad-added notification from the WebRTC sub-element whose pad
is already linked (the pre-wired first track) produces no ghost pads
and modifies no container: the handler returns the empty action list,
at every nesting depth. -/
theorem C9_linked_pad_noop (pad : WPad) (depth : Nat) (media : String)
    (hm : padMediaType pad = some media) (hl : pad.isLinked = true) :
    webrtcbinPadAdded pad depth = some [] := by
  simp [webrtcbinPadAdded, hm, hl]

/-- Witness for C9 at a concrete linked pad. -/
theorem C9_linked_pad_noop_witness :
    webrtcbinPadAdded ⟨"src_0", true, some ⟨[⟨some "audio"⟩]⟩⟩ 1 = some [] :=
  C9_linked_pad_noop ⟨"src_0", true, some ⟨[⟨some "audio"⟩]⟩⟩ 1 "audio" rfl rfl

/-- C7: when the static pipeline description references an unknown
element type, startup logs the missing element names and exits with
code -1 (non-zero) without ever requesting the Playing state. -/
theorem C7_missing_element_fails_before_playing (missing : List String) :
    startupActs (ParseResult.noSuchElement missing) =
      [StartupAct.logMissingElements missing, StartupAct.exitProcess (-1)] ∧
    StartupAct.setStatePlaying ∉ startupActs (ParseResult.noSuchElement missing) ∧
    ((-1 : Int) ≠ 0) := by
  refine ⟨rfl, ?_, by decide⟩
  simp [startupActs]

/-- C8: a discovered track whose media kind is neither `"audio"` nor
`"video"` only gets a log line: no element is created or added to the
pipeline, no mixer slot is requested, no link is made, and the probe
callback still returns `Remove` normally (the program keeps running). -/
theorem C8_unknown_media_nonfatal (media : String)
    (ha : media ≠ "audio") (hv : media ≠ "video") :
    probeHandler media =
      ⟨[Act.logInfo ("getting " ++ media ++ " track"),
        Act.logError "unhandled media type"], ProbeReturn.remove⟩ ∧
    createdIds (probeActs media) = [] ∧
    mixerSlotsOf (probeActs media) = [] ∧
    (∀ a ∈ probeActs media, ∀ id : Nat, isAddOf id a = false) := by
  refine ⟨?_, ?_, ?_, ?_⟩
  · simp [probeHandler, probeActs, ha, hv]
  · simp [createdIds, probeActs, ha, hv]
  · simp [mixerSlotsOf, probeActs, ha, hv]
  · intro a hmem id
    simp only [probeActs, if_neg ha, if_neg hv, List.mem_cons,
      List.not_mem_nil, or_false] at hmem
    rcases hmem with h | h <;> subst h <;> rfl

/-- Witness for C8 at the concrete media kind `"text"`. -/
theorem C8_unknown_media_nonfatal_witness :
    probeHandler "text" =
      ⟨[Act.logInfo ("getting " ++ "text" ++ " track"),
        Act.logError "unhandled media type"], ProbeReturn.remove⟩ ∧
    createdIds (probeActs "text") = [] ∧
    mixerSlotsOf (probeActs "text") = [] ∧
    (∀ a ∈ probeActs "text", ∀ id : Nat, isAddOf id a = false) :=
  C8_unknown_media_nonfatal "text" (by decide) (by decide)

/-! ### Pad-event machine lemmas (for C5 and C10) -/

/-- After a panic no further events are processed. -/
theorem runEvents_of_panicked (evs : List PadEvent) (st : PadState)
    (h : st.panicked = true) : runEvents st evs = st := by
  cases evs with
  | nil => rfl
  | cons e rest => simp [runEvents, h]

/-- Once the probe is uninstalled, no further invocations are recorded. -/
theorem runEvents_of_uninstalled (evs : List PadEvent) :
    ∀ st : PadState, st.probeInstalled = false →
    (runEvents st evs).invocations = st.invocations := by
  induction evs with
  | nil => intro st _; rfl
  | cons e rest ih =>
    intro st h
    by_cases hp : st.panicked = true
    · simp [runEvents, hp]
    · simp only [Bool.not_eq_true] at hp
      rw [runEvents, if_neg (by simp [hp])]
      cases e with
      | capsSet m => exact ih _ (by simpa [stepEvent] using h)
      | buffer => rw [stepEvent, if_neg (by simp [h])]; exact ih st h

/-- Shape of the recorded invocations after any event sequence starting
from the freshly probed pad: none, exactly one successful classification
(of the form `probeHandler m`), or exactly one panicked invocation. -/
theorem runEvents_invocations_shape (evs : List PadEvent) :
    ∀ st : PadState, st.probeInstalled = true → st.panicked = false →
    st.invocations = [] →
    (runEvents st evs).invocations = [] ∨
    (∃ m, (runEvents st evs).invocations = [some (probeHandler m)]) ∨
    (runEvents st evs).invocations = [none] := by
  induction evs with
  | nil => intro st _ _ h3; exact Or.inl h3
  | cons e rest ih =>
    intro st h1 h2 h3
    rw [runEvents, if_neg (by simp [h2])]
    cases e with
    | capsSet m =>
      exact ih _ (by simpa [stepEvent] using h1) (by simpa [stepEvent] using h2)
        (by simpa [stepEvent] using h3)
    | buffer =>
      rw [stepEvent, if_pos h1]
      cases hm : st.currentMedia with
      | none =>
        right; right
        rw [runEvents_of_panicked _ _ (by rfl)]
        simp [h3]
      | some m =>
        right; left
        refine ⟨m, ?_⟩
        rw [runEvents_of_uninstalled _ _ (by rfl)]
        simp [h3]

/-- Any single probe-callback invocation creates at most one element of
any given factory. -/
theorem createsOf_probeActs_le (factory media : String) :
    createsOf factory (probeActs media) ≤ 1 := by
  unfold createsOf probeActs
  by_cases h1 : media = "audio"
  · simp only [if_pos h1]
    cases h : ("decodebin" == factory) <;> simp [List.filter, h]
  · by_cases h2 : media = "video"
    · simp only [if_neg h1, if_pos h2]
      cases h : ("fakesink" == factory) <;> simp [List.filter, h]
    · simp [if_neg h1, if_neg h2, List.filter]

/-- C5: classification and routing happen at most once per discovered
port — the buffer probe removes itself on first invocation, so over any
event sequence the callback runs at most once, and in particular at most
one decodebin and at most one fakesink are ever created for the port. -/
theorem C5_route_at_most_once (events : List PadEvent) :
    (runEvents initialPadState events).invocations.length ≤ 1 ∧
    createsOf "decodebin" (routingActs (runEvents initialPadState events)) ≤ 1 ∧
    createsOf "fakesink" (routingActs (runEvents initialPadState events)) ≤ 1 := by
  rcases runEvents_invocations_shape events initialPadState rfl rfl rfl with
    h | ⟨m, h⟩ | h
  · rw [routingActs, h]; exact ⟨by simp, by simp [createsOf], by simp [createsOf]⟩
  · rw [routingActs, h]
    refine ⟨by simp, ?_, ?_⟩
    · simpa using createsOf_probeActs_le "decodebin" m
    · simpa using createsOf_probeActs_le "fakesink" m
  · rw [routingActs, h]; exact ⟨by simp, by simp [createsOf], by simp [createsOf]⟩

/-- Invariant for C10: if caps always precede buffers (relative to the
pad's current caps) then the run never panics and no recorded invocation
is a panic. -/
theorem runEvents_no_panic (evs : List PadEvent) :
    ∀ st : PadState, st.panicked = false → none ∉ st.invocations →
    capsBeforeBuffer st.currentMedia evs = true →
    (runEvents st evs).panicked = false ∧
    none ∉ (runEvents st evs).invocations := by
  induction evs with
  | nil => intro st h1 h2 _; exact ⟨h1, h2⟩
  | cons e rest ih =>
    intro st h1 h2 hc
    rw [runEvents, if_neg (by simp [h1])]
    cases e with
    | capsSet m =>
      exact ih _ (by simpa [stepEvent] using h1) (by simpa [stepEvent] using h2)
        (by simpa [capsBeforeBuffer, stepEvent] using hc)
    | buffer =>
      rw [capsBeforeBuffer, Bool.and_eq_true] at hc
      obtain ⟨hsome, hrest⟩ := hc
      obtain ⟨m, hm⟩ := Option.isSome_iff_exists.mp hsome
      by_cases hpi : st.probeInstalled = true
      · have hstep : stepEvent st PadEvent.buffer =
            { st with
                probeInstalled :=
                  decide ((probeHandler m).ret ≠ ProbeReturn.remove),
                invocations := st.invocations ++ [some (probeHandler m)] } := by
          rw [stepEvent, if_pos hpi, hm]
        rw [hstep]
        refine ih _ (by simpa using h1) ?_ (by simpa using hrest)
        simp only [List.mem_append, List.mem_singleton]
        rintro (h | h)
        · exact h2 h
        · exact Option.noConfusion h
      · have hstep : stepEvent st PadEvent.buffer = st := by
          rw [stepEvent, if_neg hpi]
        rw [hstep]
        exact ih st h1 h2 hrest

/-- C10: the classifying probe is buffer-triggered, and on a pad whose
event stream satisfies the caps-before-buffer discipline the pad's
negotiated caps are always present when the callback fires: the run
never panics (`current_caps().unwrap()` never sees `none`) and no
recorded invocation is a panicked one. -/
theorem C10_caps_present_at_classification (events : List PadEvent)
    (h : capsBeforeBuffer none events = true) :
    (runEvents initialPadState events).panicked = false ∧
    none ∉ (runEvents initialPadState events).invocations :=
  runEvents_no_panic events initialPadState rfl (by simp [initialPadState]) h

/-- Witness for C10 on a concrete well-formed event stream: caps
negotiation followed by a buffer. -/
theorem C10_caps_present_at_classification_witness :
    capsBeforeBuffer none [PadEvent.capsSet "audio", PadEvent.buffer] = true ∧
    ((runEvents initialPadState
        [PadEvent.capsSet "audio", PadEvent.buffer]).panicked = false ∧
      none ∉ (runEvents initialPadState
        [PadEvent.capsSet "audio", PadEvent.buffer]).invocations) :=
  ⟨rfl, C10_caps_present_at_classification
    [PadEvent.capsSet "audio", PadEvent.buffer] rfl⟩

/-- Non-terminal messages in front of the bus stream only prepend logs:
the loop's result on the suffix is preserved. -/
theorem busLoop_append_nonterminal (dotDebug : Bool) (post : List Message) :
    ∀ pre : List Message, (∀ m ∈ pre, isTerminal m = false) →
    ∃ ls, busLoop dotDebug (pre ++ post) =
      (ls ++ (busLoop dotDebug post).1, (busLoop dotDebug post).2) := by
  intro pre
  induction pre with
  | nil => intro _; exact ⟨[], by simp⟩
  | cons m rest ih =>
    intro h
    obtain ⟨ls, hls⟩ := ih fun x hx => h x (List.mem_cons_of_mem m hx)
    have hm : isTerminal m = false := h m (List.mem_cons_self m rest)
    cases m with
    | stateChanged srcIsPipeline old current =>
      by_cases hip : srcIsPipeline = true
      · refine ⟨BusLog.stateChangeDebug old current ::
          (if dotDebug then [BusLog.dotDump current] else []) ++ ls, ?_⟩
        rw [List.cons_append, busLoop, if_pos hip, hls]
        simp
      · refine ⟨ls, ?_⟩
        rw [List.cons_append, busLoop, if_neg hip, hls]
    | eos => exact absurd hm (by simp [isTerminal])
    | error srcPath errMsg debug => exact absurd hm (by simp [isTerminal])
    | other =>
      refine ⟨ls, ?_⟩
      rw [List.cons_append, busLoop]
      exact hls

/-- C1 counterexample: the program's bus loop breaks on a Graph-level
Error notification, drives the pipeline to Null — and then `main`
returns normally, so the process exit code is 0, not non-zero as the
claim requires. -/
theorem C1_counterexample :
    (runUntilTerminal false
      [Message.error (some "/GstPipeline:pipeline0")
        "Internal data stream error." (some "streaming stopped")]).exitCode
      = 0 ∧
    ¬ ((runUntilTerminal false
      [Message.error (some "/GstPipeline:pipeline0")
        "Internal data stream error." (some "streaming stopped")]).exitCode
      ≠ 0) := by
  exact ⟨rfl, fun h => h rfl⟩

/-- C1 (amended): for every Graph-level Error notification received
while the bus consumption loop is running, the loop terminates at that
notification (the suffix is left unconsumed), the full error context
(source path, message, debug detail) is logged, the shutdown sequence
runs (pipeline driven to Null) — and the process exits with code 0. -/
theorem C1_error_terminates_run (dotDebug : Bool) (pre post : List Message)
    (srcPath : Option String) (errMsg : String) (debug : Option String)
    (h : ∀ m ∈ pre, isTerminal m = false) :
    BusLog.errorLog srcPath errMsg debug ∈
      (runUntilTerminal dotDebug
        (pre ++ Message.error srcPath errMsg debug :: post)).logs ∧
    (runUntilTerminal dotDebug
        (pre ++ Message.error srcPath errMsg debug :: post)).unconsumed
      = post ∧
    (runUntilTerminal dotDebug
        (pre ++ Message.error srcPath errMsg debug :: post)).finalState
      = GstState.null ∧
    (runUntilTerminal dotDebug
        (pre ++ Message.error srcPath errMsg debug :: post)).exitCode = 0 := by
  obtain ⟨ls, hls⟩ := busLoop_append_nonterminal dotDebug
    (Message.error srcPath errMsg debug :: post) pre h
  have herr : busLoop dotDebug (Message.error srcPath errMsg debug :: post) =
      (BusLog.errorLog srcPath errMsg debug ::
        (if dotDebug then [BusLog.dotDump "error"] else []), post) := by
    rw [busLoop]
  refine ⟨?_, ?_, rfl, rfl⟩
  · show BusLog.errorLog srcPath errMsg debug ∈
      (busLoop dotDebug (pre ++ Message.error srcPath errMsg debug :: post)).1
    rw [hls, herr]
    simp
  · show (busLoop dotDebug (pre ++ Message.error srcPath errMsg debug :: post)).2
      = post
    rw [hls, herr]

/-- Witness for C1 (amended) at a concrete bus stream: one skipped
message, then the error, then an unreached message. -/
theorem C1_error_terminates_run_witness :
    BusLog.errorLog (some "/GstPipeline:pipeline0") "negotiation failed"
        (some "webrtcbin.c") ∈
      (runUntilTerminal true
        ([Message.other] ++ Message.error (some "/GstPipeline:pipeline0")
          "negotiation failed" (some "webrtcbin.c") :: [Message.eos])).logs ∧
    (runUntilTerminal true
        ([Message.other] ++ Message.error (some "/GstPipeline:pipeline0")
          "negotiation failed" (some "webrtcbin.c") :: [Message.eos])).unconsumed
      = [Message.eos] ∧
    (runUntilTerminal true
        ([Message.other] ++ Message.error (some "/GstPipeline:pipeline0")
          "negotiation failed" (some "webrtcbin.c") :: [Message.eos])).finalState
      = GstState.null ∧
    (runUntilTerminal true
        ([Message.other] ++ Message.error (some "/GstPipeline:pipeline0")
          "negotiation failed" (some "webrtcbin.c") :: [Message.eos])).exitCode
      = 0 :=
  C1_error_terminates_run true [Message.other] [Message.eos]
    (some "/GstPipeline:pipeline0") "negotiation failed" (some "webrtcbin.c")
    (by intro m hm; rw [List.mem_singleton] at hm; subst hm; rfl)

/-- Each decodebin leg's trace requests exactly its own mixer slot. -/
theorem mixerSlotsOf_leg (k : Nat) (p : String) :
    mixerSlotsOf (decodebinLegTrace k p) = [k] := rfl

/-- Each decodebin leg's trace creates exactly one capsfilter. -/
theorem createsOf_capsfilter_leg (k : Nat) (p : String) :
    createsOf "capsfilter" (decodebinLegTrace k p) = 1 := rfl

/-- The indices of an enumeration starting at `n` are `n, n+1, …`. -/
theorem enumFrom_map_fst (legs : List String) :
    ∀ n : Nat, (List.enumFrom n legs).map Prod.fst =
      List.range' n legs.length := by
  induction legs with
  | nil => intro n; rfl
  | cons x xs ih => intro n; simp [List.enumFrom, List.range', ih]

/-- The indices of `legs.enum` are `0, …, legs.length - 1`. -/
theorem enum_map_fst_eq_range (legs : List String) :
    legs.enum.map Prod.fst = List.range legs.length := by
  rw [List.enum, enumFrom_map_fst, List.range_eq_range']

/-- Summing 1 over a list counts its length. -/
theorem sum_map_one (l : List (Nat × String)) :
    (l.map fun _ => (1 : Nat)).sum = l.length := by
  induction l with
  | nil => rfl
  | cons x xs ih => simp [ih]; omega

/-- C2 counterexample: when the decodebin emits two output-leg pad-added
notifications, the handler runs for both: two mixer slots are requested
and two constraint stages (hence two full chains) are created — the
claim's "no second chain and no second mixer slot" fails. -/
theorem C2_counterexample :
    totalMixerSlots (decodebinRun ["src_0", "src_1"]) = 2 ∧
    ¬ totalMixerSlots (decodebinRun ["src_0", "src_1"]) ≤ 1 ∧
    totalCreatesOf "capsfilter" (decodebinRun ["src_0", "src_1"]) = 2 := by
  exact ⟨rfl, by decide, rfl⟩

/-- C2 (amended): the decodebin pad-added handler stays connected and
routes every output leg: each of the `n` legs gets its own
convert→resample→constrain chain and its own fresh mixer input slot,
and the requested slots are pairwise distinct (slots `0..n-1`). -/
theorem C2_every_leg_routed (legs : List String) :
    (decodebinRun legs).length = legs.length ∧
    totalMixerSlots (decodebinRun legs) = legs.length ∧
    totalCreatesOf "capsfilter" (decodebinRun legs) = legs.length ∧
    ((decodebinRun legs).map mixerSlotsOf).flatten = List.range legs.length := by
  refine ⟨by simp [decodebinRun], ?_, ?_, ?_⟩
  · unfold totalMixerSlots decodebinRun
    rw [List.map_map]
    have h : ((fun tr => (mixerSlotsOf tr).length) ∘
        fun p : Nat × String => decodebinLegTrace p.1 p.2) = fun _ => 1 := by
      funext p; rfl
    rw [h, sum_map_one]
    simp
  · unfold totalCreatesOf decodebinRun
    rw [List.map_map]
    have h : (createsOf "capsfilter" ∘
        fun p : Nat × String => decodebinLegTrace p.1 p.2) = fun _ => 1 := by
      funext p; rfl
    rw [h, sum_map_one]
    simp
  · unfold decodebinRun
    rw [List.map_map]
    have h : (mixerSlotsOf ∘
        fun p : Nat × String => decodebinLegTrace p.1 p.2) =
        fun p : Nat × String => [p.1] := by
      funext p; rfl
    rw [h]
    have h2 : ∀ l : List (Nat × String),
        (l.map fun p => [p.1]).flatten = l.map Prod.fst := by
      intro l
      induction l with
      | nil => rfl
      | cons x xs ih => simp [ih]
    rw [h2, enum_map_fst_eq_range]

/-- C3 counterexample: the caps string set on the constraint stage is
exactly `"audio/x-raw,format=F32LE,rate=48000"`: it fixes the sample
format and rate but carries no `channels` field at all, so the constraint
stage does not fix the format to 2-channel audio as the claim states. -/
theorem C3_counterexample :
    capsPropsSet (decodebinLegTrace 0 "src_0") = [capsFilterString] ∧
    (capsFields capsFilterString).lookup "channels" = none ∧
    ¬ (capsFields capsFilterString).lookup "channels" = some "2" := by
  exact ⟨rfl, by decide, by decide⟩

/-- C3 (amended): for a classified audio port the route builder
constructs decode stage → format-convert stage → resample stage →
fixed-format constraint stage, where the constraint fixes the format to
48 kHz 32-bit float audio (`format=F32LE,rate=48000`; the channel count
is left unconstrained), requests exactly one fresh mixer input slot,
links the chain's output to that slot, and links the given port to the
chain's input. -/
theorem C3_audio_route (legPad : String) :
    createsOf "decodebin" (probeActs "audio") = 1 ∧
    Act.linkPads PadRef.probePad (PadRef.elemPad 0 "sink") ∈
      probeActs "audio" ∧
    createsOf "audioconvert" (decodebinLegTrace 0 legPad) = 1 ∧
    createsOf "audioresample" (decodebinLegTrace 0 legPad) = 1 ∧
    createsOf "capsfilter" (decodebinLegTrace 0 legPad) = 1 ∧
    Act.linkElements 1 2 ∈ decodebinLegTrace 0 legPad ∧
    Act.linkElements 2 3 ∈ decodebinLegTrace 0 legPad ∧
    Act.linkPads (PadRef.elemPad 0 legPad) (PadRef.elemPad 1 "sink") ∈
      decodebinLegTrace 0 legPad ∧
    mixerSlotsOf (decodebinLegTrace 0 legPad) = [0] ∧
    Act.linkPads (PadRef.elemPad 3 "src") (PadRef.mixerSlot 0) ∈
      decodebinLegTrace 0 legPad ∧
    capsPropsSet (decodebinLegTrace 0 legPad) = [capsFilterString] ∧
    (capsFields capsFilterString).lookup "format" = some "F32LE" ∧
    (capsFields capsFilterString).lookup "rate" = some "48000" ∧
    (capsFields capsFilterString).lookup "channels" = none := by
  refine ⟨rfl, by simp [probeActs], rfl, rfl, rfl, ?_, ?_, ?_, rfl, ?_, rfl,
    by decide, by decide, by decide⟩ <;> simp [decodebinLegTrace]

/-- C6 counterexample: in the video branch the fakesink's state is
synchronized at trace position 3, strictly before the only link
involving it at position 4 — synchronization happens before linking,
not after it as the claim states. -/
theorem C6_counterexample :
    (probeActs "video").findIdx? (isSyncOf 0) = some 3 ∧
    (probeActs "video").findIdx? (linkInvolves 0) = some 4 ∧
    ¬ (4 : Nat) < 3 := by
  exact ⟨by decide, by decide, by decide⟩

/-- C6 (amended): every element created by the routing logic (decodebin,
audioconvert, audioresample, capsfilter, fakesink) has its state
synchronized with the pipeline after it is added to the pipeline and
before any link involving it is made (sync after add, before linking —
not after linking). -/
theorem C6_sync_after_add_before_link (legPad : String) :
    ((createdIds (probeActs "audio")).all
      (syncedAfterAddBeforeLinks (probeActs "audio"))) = true ∧
    ((createdIds (probeActs "video")).all
      (syncedAfterAddBeforeLinks (probeActs "video"))) = true ∧
    ((createdIds (decodebinLegTrace 0 legPad)).all
      (syncedAfterAddBeforeLinks (decodebinLegTrace 0 legPad))) = true := by
  exact ⟨by decide, by decide, rfl⟩

end WhepSrt
